import Mathlib

/-!
# Verification of the thePodcaster background job pipeline

A shallow embedding of the background job processing pipeline of the
thePodcaster backend (`backend/app/workers/tasks.py` together with the
three media adapters in `backend/app/services/` and the storage helpers in
`backend/app/utils/storage.py`), with theorems settling the specification
claims about it.

Modelling conventions:
* Filesystem paths are lists of path components (`FPath`); the filesystem
  itself is the list of existing paths (`FS`).
* The database session is explicit state: the job table is a list of rows,
  SQLAlchemy's "fetch row, mutate attributes, commit" maps to fetching the
  row by id and writing back a replacement row with the same id.
* External effects (the `ffmpeg.run` subprocess invocation, the Whisper
  model constructor and its `transcribe` method) are oracle parameters:
  each adapter takes the outcome of the external call as an argument and
  additionally reports how many external invocations it performed.
* Python exceptions are values of the inductive type `Exc`; a Python
  function that can raise returns `Except Exc _`.
* Machine floats on the transcription path are modelled as rationals.
-/

namespace Podcaster

/-- Python exception values.  Constructors carry the message that
`str(exc)` would show (for `ffmpeg.Error`, the captured stderr bytes). -/
inductive Exc where
  | fileNotFound (msg : String)
  | ffmpegError (stderr : String)
  | valueError (msg : String)
  | runtimeError (msg : String)
  | assertionError (msg : String)
  | other (msg : String)
deriving DecidableEq

/-- `str(exc)` for each modelled exception class.  `ffmpeg.Error.__init__`
passes the fixed message `"ffmpeg error (see stderr output for detail)"`
to `Exception.__init__`; the other classes stringify to their message. -/
def Exc.toStr : Exc → String
  | .fileNotFound msg => msg
  | .ffmpegError _ => "ffmpeg error (see stderr output for detail)"
  | .valueError msg => msg
  | .runtimeError msg => msg
  | .assertionError msg => msg
  | .other msg => msg

/-- Whether an exception is the `FileNotFoundError` class (the
"distinguishable not-found error" of the spec). -/
def Exc.isFileNotFound : Exc → Bool
  | .fileNotFound _ => true
  | _ => false

/-- Python string slicing `s[:n]`: the first `n` characters. -/
def pyTake (n : Nat) (s : String) : String :=
  String.mk (s.data.take n)

/-! ## Paths (`pathlib.Path`operations used by the pipeline) -/

/-- A filesystem path, as the list of its components. -/
abbrev FPath := List String

/-- `str(path)`: components joined by `/`. -/
def pathToString (p : FPath) : String :=
  String.intercalate "/" p

/-- Helper for `strToPath`: splits a character list at `/` separators. -/
def splitOnSlashAux : List Char → List Char → List String
  | [], acc => [String.mk acc.reverse]
  | c :: rest, acc =>
    if c = '/' then String.mk acc.reverse :: splitOnSlashAux rest []
    else splitOnSlashAux rest (c :: acc)

/-- `Path(s)` for the relative path strings the tasks receive: split into
components at the separator. -/
def strToPath (s : String) : FPath :=
  splitOnSlashAux s.data []

/-- Python `str.strip()`: remove leading and trailing whitespace. -/
def pyStrip (s : String) : String :=
  String.mk (((s.data.dropWhile Char.isWhitespace).reverse.dropWhile Char.isWhitespace).reverse)

/-- `p.relative_to(root)` (`pathlib.PurePath.relative_to`): drops the root
prefix, raising `ValueError` when `root` is not a prefix of `p`. -/
def relative_to (p root : FPath) : Except Exc FPath :=
  if root.isPrefixOf p then .ok (p.drop root.length)
  else .error (.valueError (pathToString p ++ " is not in the subpath of " ++ pathToString root))

/-- The shared data root resolved by `app/utils/storage.py` (env var,
`/data`, or `<project>/data`; its concrete value is irrelevant to the
pipeline, which only ever re-relativises against it). -/
def DATA_ROOT : FPath := ["data"]

/-- `PROCESSED_DIR = DATA_ROOT / "processed"`. -/
def PROCESSED_DIR : FPath := DATA_ROOT ++ ["processed"]

/-- `TRANSCRIPT_DIR = DATA_ROOT / "transcripts"`. -/
def TRANSCRIPT_DIR : FPath := DATA_ROOT ++ ["transcripts"]

/-- The filesystem: the list of existing file paths. -/
abbrev FS := List FPath

/-- `path.exists()`. -/
def fsExists (fs : FS) (p : FPath) : Bool :=
  fs.contains p

/-! ## SRT timestamp formatting (`services/transcription.py`) -/

/-- Python 3 `round` to an integer: round half to even (banker's
rounding), on the exact rational value. -/
def roundHalfEven (q : ℚ) : ℤ :=
  if q - ⌊q⌋ < 1/2 then ⌊q⌋
  else if q - ⌊q⌋ > 1/2 then ⌊q⌋ + 1
  else if ⌊q⌋ % 2 = 0 then ⌊q⌋ else ⌊q⌋ + 1

/-- Decimal digit character for a digit value. -/
def digitChar10 (d : Nat) : Char := Char.ofNat (48 + d)

/-- Little-endian decimal digits of `n`, with explicit recursion fuel so
that the definition is structural (and therefore evaluates inside the
kernel).  With `fuel ≥ n` this agrees with the mathematical digit list. -/
def natDecDigits (fuel n : Nat) : List Nat :=
  match fuel with
  | 0 => []
  | f + 1 => if n = 0 then [] else n % 10 :: natDecDigits f (n / 10)

/-- Decimal rendering of a natural number (what `"%d" % n` prints for a
non-negative int). -/
def natToStr (n : Nat) : String :=
  if n = 0 then "0"
  else String.mk ((natDecDigits n n).reverse.map digitChar10)

/-- Decimal rendering of a Python int, sign included. -/
def intToStr (i : ℤ) : String :=
  if i < 0 then "-" ++ natToStr i.natAbs else natToStr i.toNat

/-- Zero left-padding to width `w`, as in the format specs `{:02d}` and
`{:03d}` applied to the non-negative ints of `format_timestamp_srt`. -/
def zfill (w : Nat) (s : String) : String :=
  String.mk (List.replicate (w - s.length) '0') ++ s

/-- The integer part of `format_timestamp_srt`, operating on the rounded
millisecond count: Python's `//` is floor division (`Int.fdiv`) and `-=`
is the successive remainder computation of the source. -/
def formatMilliseconds (milliseconds : ℤ) : String :=
  let hours := Int.fdiv milliseconds 3600000
  let ms1 := milliseconds - hours * 3600000
  let minutes := Int.fdiv ms1 60000
  let ms2 := ms1 - minutes * 60000
  let secs := Int.fdiv ms2 1000
  let ms3 := ms2 - secs * 1000
  zfill 2 (intToStr hours) ++ ":" ++ zfill 2 (intToStr minutes) ++ ":"
    ++ zfill 2 (intToStr secs) ++ "," ++ zfill 3 (intToStr ms3)

/-- `format_timestamp_srt` (`services/transcription.py`): converts seconds
to the SRT `HH:MM:SS,mmm` form.  The leading `assert seconds >= 0` raises
`AssertionError` on a negative argument. -/
def format_timestamp_srt (seconds : ℚ) : Except Exc String :=
  if 0 ≤ seconds then .ok (formatMilliseconds (roundHalfEven (seconds * 1000)))
  else .error (.assertionError "non-negative timestamp expected")


/-! ## Speech-recognition engine (`services/transcription.py`) -/

/-- A loaded speech-recognition model instance (its contents never matter
to the pipeline logic, only its presence). -/
inductive WhisperModel where
  | loaded : WhisperModel
deriving DecidableEq

/-- One timed segment produced by `model.transcribe`. -/
structure Segment where
  start : ℚ
  stop : ℚ
  text : String
deriving DecidableEq

/-- The `info` object returned by `model.transcribe` alongside the
segments. -/
structure TranscriptionInfo where
  language : String
  language_probability : ℚ
  duration : ℚ
deriving DecidableEq

deriving instance DecidableEq for Except

/-- Result of one `get_whisper_model` call: the returned value, the new
module-level `_model_instance` state, and whether this call invoked the
`WhisperModel(...)` constructor. -/
structure ModelFetch where
  result : Option WhisperModel
  state : Option WhisperModel
  attemptedInit : Bool
deriving DecidableEq

/-- `get_whisper_model`: returns the cached `_model_instance` when set;
otherwise attempts construction (`initOutcome` is the oracle for the
constructor call), caching the instance on success and storing `None` —
and returning `None`, the raised exception being caught and logged — on
failure. -/
def get_whisper_model (state : Option WhisperModel)
    (initOutcome : Except Exc WhisperModel) : ModelFetch :=
  match state with
  | some m => ⟨some m, some m, false⟩
  | none =>
    match initOutcome with
    | .ok m => ⟨some m, some m, true⟩
    | .error _ => ⟨none, none, true⟩

/-- The per-segment loop of `transcribe_audio`: accumulates plain-text
parts and SRT parts with 1-based cue numbering.  The loop body runs inside
the function's `try`, so a raising timestamp format propagates out of the
loop. -/
def segmentLoop : List Segment → Nat → Except Exc (List String × List String)
  | [], _ => .ok ([], [])
  | seg :: rest, idx => do
    let startTs ← format_timestamp_srt seg.start
    let endTs ← format_timestamp_srt seg.stop
    let (plainParts, srtParts) ← segmentLoop rest (idx + 1)
    .ok (pyStrip seg.text :: plainParts,
      natToStr idx :: (startTs ++ " --> " ++ endTs) :: pyStrip seg.text :: "" :: srtParts)

/-- Result of one `transcribe_audio` call: the Python return value — a
2-tuple of plain text and SRT text — plus the new module-level model state
and the number of `model.transcribe` engine invocations performed. -/
structure TranscribeCall where
  result : Except Exc (String × String)
  state : Option WhisperModel
  engineCalls : Nat
deriving DecidableEq

/-- `transcribe_audio`: fetches the engine (raising `RuntimeError` when it
is unavailable), then checks the audio file exists (raising
`FileNotFoundError` otherwise), then decodes; any exception out of the
decode loop is re-raised as `RuntimeError("Transcription failed for ...")`.
`engineOutcome` is the oracle for the `model.transcribe` invocation. -/
def transcribe_audio (fs : FS) (state : Option WhisperModel)
    (initOutcome : Except Exc WhisperModel)
    (engineOutcome : Except Exc (List Segment × TranscriptionInfo))
    (audio_input_path : FPath) : TranscribeCall :=
  let fetch := get_whisper_model state initOutcome
  match fetch.result with
  | none =>
    ⟨.error (.runtimeError "Whisper model is not initialized or failed to load."),
      fetch.state, 0⟩
  | some _ =>
    if ¬ fsExists fs audio_input_path then
      ⟨.error (.fileNotFound ("Audio input file not found: " ++ pathToString audio_input_path)),
        fetch.state, 0⟩
    else
      match engineOutcome with
      | .error e =>
        ⟨.error (.runtimeError ("Transcription failed for " ++ pathToString audio_input_path
          ++ ": " ++ e.toStr)), fetch.state, 1⟩
      | .ok (segments, _info) =>
        match segmentLoop segments 1 with
        | .error e =>
          ⟨.error (.runtimeError ("Transcription failed for " ++ pathToString audio_input_path
            ++ ": " ++ e.toStr)), fetch.state, 1⟩
        | .ok (plainParts, srtParts) =>
          ⟨.ok (String.intercalate " " plainParts, String.intercalate "\n" srtParts),
            fetch.state, 1⟩

/-! ## FFmpeg adapters (`services/audio_processing.py`, `services/video_processing.py`) -/

/-- `merge_and_normalize_audio`: rejects an empty input list, then checks
every input exists (in list order, raising `FileNotFoundError` at the
first missing one) before building the FFmpeg graph; `runOutcome` is the
oracle for the single `ffmpeg.run` subprocess invocation (an arbitrary
`Exc` covers both `ffmpeg.Error` and unexpected exceptions, which the
source re-raises after best-effort cleanup of the partial output).
Returns the result together with the number of external `ffmpeg.run`
invocations made. -/
def merge_and_normalize_audio (fs : FS) (runOutcome : Except Exc Unit)
    (input_files : List FPath) (output_path : FPath) : Except Exc FPath × Nat :=
  if input_files.isEmpty then
    (.error (.valueError "Input files list cannot be empty."), 0)
  else
    match input_files.find? (fun f => !(fsExists fs f)) with
    | some f => (.error (.fileNotFound ("Input file not found: " ++ pathToString f)), 0)
    | none =>
      match runOutcome with
      | .ok _ => (.ok output_path, 1)
      | .error e => (.error e, 1)

/-- `generate_waveform_video`: checks the source audio exists (raising
`FileNotFoundError` otherwise) before building the FFmpeg graph and
running the single external invocation; `ffmpeg.Error` from it is
re-raised.  The rendering parameters only shape the external command. -/
def generate_waveform_video (fs : FS) (runOutcome : Except Exc Unit)
    (audio_input_path video_output_path : FPath)
    (resolution fg_color bg_color : String)
    (background_image_path : Option FPath) : Except Exc FPath × Nat :=
  if ¬ fsExists fs audio_input_path then
    (.error (.fileNotFound ("Audio input not found: " ++ pathToString audio_input_path)), 0)
  else
    match runOutcome with
    | .ok _ => (.ok video_output_path, 1)
    | .error e => (.error e, 1)

/-- `save_transcript_to_files` (`utils/storage.py`): writes
`<basename>.txt` and `<basename>.srt` under the transcript directory and
returns both paths relative to `DATA_ROOT`. -/
def save_transcript_to_files (output_basename : String) (plain_text srt_text : String)
    (transcript_dir : FPath) : Except Exc (FPath × FPath) := do
  let txtRel ← relative_to (transcript_dir ++ [output_basename ++ ".txt"]) DATA_ROOT
  let srtRel ← relative_to (transcript_dir ++ [output_basename ++ ".srt"]) DATA_ROOT
  .ok (txtRel, srtRel)

/-! ## Job store (`models/job.py`, `models/transcript.py`) -/

/-- `JobStatus` (`models/job.py`). -/
inductive JobStatus where
  | PENDING
  | PROCESSING
  | COMPLETED
  | FAILED
deriving DecidableEq

/-- A `processing_jobs` row (`created_at` omitted: the pipeline never
reads or writes it after creation). -/
structure ProcessingJob where
  id : Nat
  job_type : String
  status : JobStatus
  output_file_path : Option String
  error_message : Option String
deriving DecidableEq

/-- A `transcripts` row (`models/transcript.py`). -/
structure Transcript where
  processing_job_id : Nat
  text_content : String
  srt_content : String
  language : String
deriving DecidableEq

/-- The persistent store the pipeline mutates. -/
structure Store where
  jobs : List ProcessingJob
  transcripts : List Transcript
deriving DecidableEq

/-- `db.query(ProcessingJob).filter(ProcessingJob.id == job_id).first()`. -/
def dbFirst (jobs : List ProcessingJob) (job_id : Nat) : Option ProcessingJob :=
  jobs.find? (fun j => j.id == job_id)

/-- Committing attribute mutations of a fetched row: every row with the
same primary key is replaced by the mutated row. -/
def dbUpdate (jobs : List ProcessingJob) (j : ProcessingJob) : List ProcessingJob :=
  jobs.map (fun r => if r.id == j.id then j else r)

/-- Job creation at the API boundary (`routes_audio.process_audio` and
friends): a fresh row with a positive autoincrement primary key and
status PENDING, output and error unset. -/
def dbInsertJob (st : Store) (job_type : String) : Store × Nat :=
  let newId := (st.jobs.map (fun j => j.id)).foldr max 0 + 1
  ({ st with jobs := st.jobs ++ [⟨newId, job_type, .PENDING, none, none⟩] }, newId)

/-- Stores reachable by the pipeline: every job row carries a positive
autoincrement id (SQLAlchemy integer primary keys start at 1). -/
def WellFormedStore (st : Store) : Prop :=
  ∀ j ∈ st.jobs, 1 ≤ j.id

/-! ## Task executor (`workers/tasks.py`) -/

/-- The error message the `except` clauses of `process_audio_task` and
`generate_video_task` write before re-raising: `FileNotFoundError` and
`ffmpeg.Error` (stderr when captured, `str(e)` otherwise, truncated to 500
characters) are distinguished, everything else is "Unexpected error". -/
def mediaTaskErrMsg : Exc → String
  | .fileNotFound msg => "File not found: " ++ msg
  | .ffmpegError stderr =>
    "FFmpeg error: " ++ pyTake 500 (if stderr = "" then Exc.toStr (.ffmpegError stderr) else stderr)
  | e => "Unexpected error: " ++ pyTake 500 e.toStr

/-- The error message the `except` clauses of `transcribe_audio_task`
write before re-raising. -/
def transcribeTaskErrMsg : Exc → String
  | .fileNotFound msg => "File not found: " ++ msg
  | .runtimeError msg => "Transcription runtime error: " ++ pyTake 500 msg
  | e => "Unexpected error: " ++ pyTake 500 e.toStr

/-- `BaseTaskWithDB.on_failure`: re-fetches the job and marks it FAILED
with the truncated stringified exception.  The job id is recovered by
`kwargs.get('job_id') or (args[0] if ... else None)`, which is falsy for
id `0`, in which case the update is skipped. -/
def on_failure (st : Store) (job_id : Nat) (exc : Exc) : Store :=
  if job_id ≠ 0 then
    match dbFirst st.jobs job_id with
    | some job =>
      let failed := { job with
        status := JobStatus.FAILED,
        error_message := some ("Task failed: " ++ pyTake 500 exc.toStr) }
      { st with jobs := dbUpdate st.jobs failed }
    | none => st
  else st

/-- The body of `process_audio_task` (its `try`/`except`/`finally`):
returns the committed store and the Python outcome — the relative output
path on success, the re-raised exception otherwise. -/
def process_audio_task_body (st : Store) (fs : FS) (runOutcome : Except Exc Unit)
    (job_id : Nat) (input_paths_str : List String) (output_filename : String) :
    Store × Except Exc String :=
  match dbFirst st.jobs job_id with
  | none => (st, .error (.valueError ("Job " ++ natToStr job_id ++ " not found.")))
  | some job =>
    let job1 := { job with status := JobStatus.PROCESSING }
    let jobs1 := dbUpdate st.jobs job1
    let input_file_paths := input_paths_str.map (fun p => DATA_ROOT ++ strToPath p)
    let output_path := PROCESSED_DIR ++ [output_filename]
    match (merge_and_normalize_audio fs runOutcome input_file_paths output_path).1 with
    | .ok processed_file_path =>
      match relative_to processed_file_path DATA_ROOT with
      | .ok rel =>
        let relStr := pathToString rel
        let job2 := { job1 with
          status := JobStatus.COMPLETED,
          output_file_path := some relStr,
          error_message := none }
        ({ st with jobs := dbUpdate jobs1 job2 }, .ok relStr)
      | .error e =>
        let job2 := { job1 with error_message := some (mediaTaskErrMsg e) }
        ({ st with jobs := dbUpdate jobs1 job2 }, .error e)
    | .error e =>
      let job2 := { job1 with error_message := some (mediaTaskErrMsg e) }
      ({ st with jobs := dbUpdate jobs1 job2 }, .error e)

/-- One full Celery delivery of `process_audio_task`: the body, followed
by `BaseTaskWithDB.on_failure` when the body raised. -/
def process_audio_task_run (st : Store) (fs : FS) (runOutcome : Except Exc Unit)
    (job_id : Nat) (input_paths_str : List String) (output_filename : String) :
    Store × Except Exc String :=
  match process_audio_task_body st fs runOutcome job_id input_paths_str output_filename with
  | (st1, .ok v) => (st1, .ok v)
  | (st1, .error e) => (on_failure st1 job_id e, .error e)

/-- The global-name lookup of `generate_waveform_video` at the call site
in `generate_video_task` (`workers/tasks.py` line 182): the module's top
imports (lines 1-30) bring in `merge_and_normalize_audio` and
`transcribe_audio` from the services but never `generate_waveform_video`,
so Python raises `NameError` when the call resolves the name — before the
adapter (and its existence check or FFmpeg invocation) can run.  The
call's continuation in the task body is dead code. -/
def generate_waveform_video_lookup : Except Exc Unit :=
  .error (.other "name 'generate_waveform_video' is not defined")

/-- The body of `generate_video_task`.  The adapter call first resolves
the (never imported) global name `generate_waveform_video`; the `NameError`
this raises lands in the task's `except Exception` clause.  The success
continuation is kept as written in the source, though unreachable. -/
def generate_video_task_body (st : Store) (fs : FS) (runOutcome : Except Exc Unit)
    (job_id : Nat) (audio_input_path_str : String) (output_filename : String)
    (resolution fg_color bg_color : String) (background_image_path_str : Option String) :
    Store × Except Exc String :=
  match dbFirst st.jobs job_id with
  | none => (st, .error (.valueError ("Job " ++ natToStr job_id ++ " not found.")))
  | some job =>
    let job1 := { job with status := JobStatus.PROCESSING }
    let jobs1 := dbUpdate st.jobs job1
    let audio_input_path := DATA_ROOT ++ strToPath audio_input_path_str
    let video_output_path := PROCESSED_DIR ++ [output_filename]
    let background_image_path := background_image_path_str.map (fun s => DATA_ROOT ++ strToPath s)
    match generate_waveform_video_lookup with
    | .ok _ =>
      match (generate_waveform_video fs runOutcome audio_input_path video_output_path
          resolution fg_color bg_color background_image_path).1 with
      | .ok generated_video_path =>
        match relative_to generated_video_path DATA_ROOT with
        | .ok rel =>
          let relStr := pathToString rel
          let job2 := { job1 with
            status := JobStatus.COMPLETED,
            output_file_path := some relStr,
            error_message := none }
          ({ st with jobs := dbUpdate jobs1 job2 }, .ok relStr)
        | .error e =>
          let job2 := { job1 with error_message := some (mediaTaskErrMsg e) }
          ({ st with jobs := dbUpdate jobs1 job2 }, .error e)
      | .error e =>
        let job2 := { job1 with error_message := some (mediaTaskErrMsg e) }
        ({ st with jobs := dbUpdate jobs1 job2 }, .error e)
    | .error e =>
      let job2 := { job1 with error_message := some (mediaTaskErrMsg e) }
      ({ st with jobs := dbUpdate jobs1 job2 }, .error e)

/-- One full Celery delivery of `generate_video_task`. -/
def generate_video_task_run (st : Store) (fs : FS) (runOutcome : Except Exc Unit)
    (job_id : Nat) (audio_input_path_str : String) (output_filename : String)
    (resolution fg_color bg_color : String) (background_image_path_str : Option String) :
    Store × Except Exc String :=
  match generate_video_task_body st fs runOutcome job_id audio_input_path_str output_filename
      resolution fg_color bg_color background_image_path_str with
  | (st1, .ok v) => (st1, .ok v)
  | (st1, .error e) => (on_failure st1 job_id e, .error e)

/-- The tuple unpacking
`plain_text, srt_text, language = transcribe_audio(audio_input_path)` of
`transcribe_audio_task`: the callee returns a 2-tuple, so this assignment
raises `ValueError` in Python; the three-name continuation of the task
body is dead code. -/
def unpackThree (pair : String × String) : Except Exc (String × String × String) :=
  .error (.valueError "not enough values to unpack (expected 3, got 2)")

/-- The body of `transcribe_audio_task`: fetches the job, flips it to
PROCESSING, transcribes, unpacks the result into three names, saves the
transcript files, inserts the `Transcript` row and completes the job —
with every raised exception recorded in `error_message` and re-raised.
Also returns the worker's module-level model state after the call. -/
def transcribe_audio_task_body (st : Store) (fs : FS) (modelState : Option WhisperModel)
    (initOutcome : Except Exc WhisperModel)
    (engineOutcome : Except Exc (List Segment × TranscriptionInfo))
    (job_id : Nat) (audio_input_path_str : String) (output_basename : String) :
    Store × Option WhisperModel × Except Exc String :=
  match dbFirst st.jobs job_id with
  | none => (st, modelState, .error (.valueError ("Job " ++ natToStr job_id ++ " not found.")))
  | some job =>
    let job1 := { job with status := JobStatus.PROCESSING }
    let jobs1 := dbUpdate st.jobs job1
    let audio_input_path := DATA_ROOT ++ strToPath audio_input_path_str
    let call := transcribe_audio fs modelState initOutcome engineOutcome audio_input_path
    match call.result with
    | .error e =>
      let job2 := { job1 with error_message := some (transcribeTaskErrMsg e) }
      ({ st with jobs := dbUpdate jobs1 job2 }, call.state, .error e)
    | .ok pair =>
      match unpackThree pair with
      | .error e =>
        let job2 := { job1 with error_message := some (transcribeTaskErrMsg e) }
        ({ st with jobs := dbUpdate jobs1 job2 }, call.state, .error e)
      | .ok (plain_text, srt_text, language) =>
        match save_transcript_to_files output_basename plain_text srt_text TRANSCRIPT_DIR with
        | .error e =>
          let job2 := { job1 with error_message := some (transcribeTaskErrMsg e) }
          ({ st with jobs := dbUpdate jobs1 job2 }, call.state, .error e)
        | .ok (_txt_rel_path, srt_rel_path) =>
          let transcript_record : Transcript := ⟨job1.id, plain_text, srt_text, language⟩
          let job2 := { job1 with
            status := JobStatus.COMPLETED,
            output_file_path := some (pathToString srt_rel_path),
            error_message := none }
          ({ st with
              jobs := dbUpdate jobs1 job2,
              transcripts := st.transcripts ++ [transcript_record] },
            call.state, .ok (pathToString srt_rel_path))

/-- One full Celery delivery of `transcribe_audio_task`. -/
def transcribe_audio_task_run (st : Store) (fs : FS) (modelState : Option WhisperModel)
    (initOutcome : Except Exc WhisperModel)
    (engineOutcome : Except Exc (List Segment × TranscriptionInfo))
    (job_id : Nat) (audio_input_path_str : String) (output_basename : String) :
    Store × Option WhisperModel × Except Exc String :=
  match transcribe_audio_task_body st fs modelState initOutcome engineOutcome job_id
      audio_input_path_str output_basename with
  | (st1, ms1, .ok v) => (st1, ms1, .ok v)
  | (st1, ms1, .error e) => (on_failure st1 job_id e, ms1, .error e)

/-! ## Pipeline operations and store invariants -/

/-- One complete delivered task execution, packaged with its
external-world parameters (filesystem snapshot, external tool outcomes,
worker engine state). -/
inductive PipelineOp where
  | audio (fs : FS) (runOutcome : Except Exc Unit) (job_id : Nat)
      (input_paths_str : List String) (output_filename : String)
  | video (fs : FS) (runOutcome : Except Exc Unit) (job_id : Nat)
      (audio_input_path_str output_filename resolution fg_color bg_color : String)
      (background_image_path_str : Option String)
  | transcription (fs : FS) (modelState : Option WhisperModel)
      (initOutcome : Except Exc WhisperModel)
      (engineOutcome : Except Exc (List Segment × TranscriptionInfo)) (job_id : Nat)
      (audio_input_path_str output_basename : String)

/-- The job id a pipeline operation targets. -/
def PipelineOp.jobId : PipelineOp → Nat
  | .audio _ _ j _ _ => j
  | .video _ _ j _ _ _ _ _ _ => j
  | .transcription _ _ _ _ j _ _ => j

/-- Executing one delivered task against the store. -/
def runOp (st : Store) : PipelineOp → Store
  | .audio fs r j ps o => (process_audio_task_run st fs r j ps o).1
  | .video fs r j a o res fg bg bgi => (generate_video_task_run st fs r j a o res fg bg bgi).1
  | .transcription fs ms ini eng j a b =>
    (transcribe_audio_task_run st fs ms ini eng j a b).1

/-- Executing a sequence of delivered tasks. -/
def runOps (st : Store) : List PipelineOp → Store
  | [] => st
  | op :: rest => runOps (runOp st op) rest

/-- The per-row field consistency the executor maintains between
deliveries: PENDING rows carry neither output nor error, no row rests in
PROCESSING, COMPLETED rows carry an output and no error, FAILED rows carry
an error. -/
def JobConsistent (j : ProcessingJob) : Prop :=
  (j.status = JobStatus.PENDING → j.output_file_path = none ∧ j.error_message = none)
  ∧ j.status ≠ JobStatus.PROCESSING
  ∧ (j.status = JobStatus.COMPLETED → j.output_file_path ≠ none ∧ j.error_message = none)
  ∧ (j.status = JobStatus.FAILED → j.error_message ≠ none)

/-- Store-wide consistency: well-formed ids and per-row consistency. -/
def StoreConsistent (st : Store) : Prop :=
  WellFormedStore st ∧ ∀ j ∈ st.jobs, JobConsistent j

instance (j : ProcessingJob) : Decidable (JobConsistent j) := by
  unfold JobConsistent
  infer_instance

instance (st : Store) : Decidable (WellFormedStore st) := by
  unfold WellFormedStore
  infer_instance

instance (st : Store) : Decidable (StoreConsistent st) := by
  unfold StoreConsistent
  infer_instance
/-! ### Arithmetic facts about the formatter -/

theorem roundHalfEven_intCast (m : ℤ) : roundHalfEven ((m : ℤ) : ℚ) = m := by
  simp only [roundHalfEven, Int.floor_intCast]
  rw [if_pos]
  rw [sub_self]
  norm_num

theorem roundHalfEven_nonneg {q : ℚ} (h : 0 ≤ q) : 0 ≤ roundHalfEven q := by
  have h0 : 0 ≤ ⌊q⌋ := Int.floor_nonneg.mpr h
  unfold roundHalfEven
  split_ifs <;> omega

theorem intFdiv_coe (a b : ℕ) : Int.fdiv ((a : ℕ) : ℤ) ((b : ℕ) : ℤ) = ((a / b : ℕ) : ℤ) := by
  cases a with
  | zero => simp [Int.fdiv]
  | succ a => rfl

theorem intToStr_coe (n : ℕ) : intToStr ((n : ℕ) : ℤ) = natToStr n := by
  simp [intToStr]

theorem zfill_length (w : Nat) (s : String) : (zfill w s).length = max w s.length := by
  rw [zfill, String.length_append]
  show (List.replicate (w - s.length) '0').length + s.length = max w s.length
  rw [List.length_replicate]
  omega

theorem natDecDigits_length_le (fuel : Nat) : ∀ n k : Nat, n < 10 ^ k →
    (natDecDigits fuel n).length ≤ k := by
  induction fuel with
  | zero => intro n k _; simp [natDecDigits]
  | succ f ih =>
    intro n k hn
    by_cases h0 : n = 0
    · simp [natDecDigits, h0]
    · have hk : k ≠ 0 := by
        rintro rfl
        simp at hn
        omega
      obtain ⟨k', rfl⟩ := Nat.exists_eq_succ_of_ne_zero hk
      have hdiv : n / 10 < 10 ^ k' := by
        rw [Nat.div_lt_iff_lt_mul (by norm_num)]
        calc n < 10 ^ (k' + 1) := hn
        _ = 10 ^ k' * 10 := by ring
      simp only [natDecDigits, if_neg h0, List.length_cons]
      have := ih (n / 10) k' hdiv
      omega

theorem natToStr_length_le {n k : Nat} (hk : 1 ≤ k) (hn : n < 10 ^ k) :
    (natToStr n).length ≤ k := by
  by_cases h0 : n = 0
  · simpa [natToStr, h0, String.length] using hk
  · have : (natToStr n).length = ((natDecDigits n n).reverse.map digitChar10).length := by
      simp [natToStr, h0, String.length]
    rw [this, List.length_map, List.length_reverse]
    exact natDecDigits_length_le n n k hn

/-- The decomposition of `formatMilliseconds` on a non-negative
millisecond count, in terms of natural-number division and remainder. -/
theorem formatMilliseconds_spec (M : ℕ) :
    formatMilliseconds ((M : ℕ) : ℤ) =
      zfill 2 (natToStr (M / 3600000)) ++ ":" ++ zfill 2 (natToStr (M % 3600000 / 60000)) ++ ":"
        ++ zfill 2 (natToStr (M % 3600000 % 60000 / 1000)) ++ ","
        ++ zfill 3 (natToStr (M % 3600000 % 60000 % 1000)) := by
  have e1 : ((M : ℕ) : ℤ) - ((M / 3600000 : ℕ) : ℤ) * ((3600000 : ℕ) : ℤ)
      = ((M % 3600000 : ℕ) : ℤ) := by
    push_cast
    omega
  have e2 : ((M % 3600000 : ℕ) : ℤ) - ((M % 3600000 / 60000 : ℕ) : ℤ) * ((60000 : ℕ) : ℤ)
      = ((M % 3600000 % 60000 : ℕ) : ℤ) := by
    push_cast
    omega
  have e3 : ((M % 3600000 % 60000 : ℕ) : ℤ)
        - ((M % 3600000 % 60000 / 1000 : ℕ) : ℤ) * ((1000 : ℕ) : ℤ)
      = ((M % 3600000 % 60000 % 1000 : ℕ) : ℤ) := by
    push_cast
    omega
  show zfill 2 (intToStr (Int.fdiv ((M : ℕ) : ℤ) 3600000)) ++ ":" ++ _ ++ ":" ++ _ ++ "," ++ _ = _
  rw [show ((3600000 : ℤ)) = ((3600000 : ℕ) : ℤ) from rfl, intFdiv_coe, e1]
  rw [show ((60000 : ℤ)) = ((60000 : ℕ) : ℤ) from rfl, intFdiv_coe, e2]
  rw [show ((1000 : ℤ)) = ((1000 : ℕ) : ℤ) from rfl, intFdiv_coe, e3]
  rw [intToStr_coe, intToStr_coe, intToStr_coe, intToStr_coe]

theorem natToStr_length_le_two {n : ℕ} (h : n < 100) : (natToStr n).length ≤ 2 := by
  have h2 : n < 10 ^ 2 := by
    calc n < 100 := h
    _ = 10 ^ 2 := by norm_num
  exact natToStr_length_le one_le_two h2

theorem natToStr_length_le_three {n : ℕ} (h : n < 1000) : (natToStr n).length ≤ 3 := by
  have h3 : n < 10 ^ 3 := by
    calc n < 1000 := h
    _ = 10 ^ 3 := by norm_num
  exact natToStr_length_le (by norm_num) h3

/-- C9: subtitle timestamp formatting at the three specified inputs. -/
theorem claim_C9_srt_timestamp_examples :
    format_timestamp_srt (125.4 : ℚ) = .ok "00:02:05,400"
    ∧ format_timestamp_srt (0 : ℚ) = .ok "00:00:00,000"
    ∧ format_timestamp_srt (3661.999 : ℚ) = .ok "01:01:01,999" := by
  refine ⟨?_, ?_, ?_⟩
  · rw [format_timestamp_srt, if_pos (by norm_num : (0:ℚ) ≤ 125.4)]
    rw [show (125.4 : ℚ) * 1000 = ((125400 : ℤ) : ℚ) by norm_num, roundHalfEven_intCast]
    rfl
  · rw [format_timestamp_srt, if_pos (le_refl (0:ℚ))]
    rw [show (0 : ℚ) * 1000 = ((0 : ℤ) : ℚ) by norm_num, roundHalfEven_intCast]
    rfl
  · rw [format_timestamp_srt, if_pos (by norm_num : (0:ℚ) ≤ 3661.999)]
    rw [show (3661.999 : ℚ) * 1000 = ((3661999 : ℤ) : ℚ) by norm_num, roundHalfEven_intCast]
    rfl

/-- C10: `format_timestamp_srt` asserts non-negativity.  On every
non-negative input the result is the four zero-padded fields
(`2`/`2`/`2`/`3` digits wide) with minutes, seconds and milliseconds in
range; on every negative input the assertion raises `AssertionError`. -/
theorem claim_C10_srt_timestamp_assert_and_padding (q : ℚ) :
    (0 ≤ q →
      ∃ h m s ms : ℕ,
        format_timestamp_srt q = .ok
          (zfill 2 (natToStr h) ++ ":" ++ zfill 2 (natToStr m) ++ ":"
            ++ zfill 2 (natToStr s) ++ "," ++ zfill 3 (natToStr ms))
        ∧ m < 60 ∧ s < 60 ∧ ms < 1000
        ∧ 2 ≤ (zfill 2 (natToStr h)).length
        ∧ (zfill 2 (natToStr m)).length = 2
        ∧ (zfill 2 (natToStr s)).length = 2
        ∧ (zfill 3 (natToStr ms)).length = 3)
    ∧ (q < 0 →
        format_timestamp_srt q = .error (.assertionError "non-negative timestamp expected")) := by
  constructor
  · intro hq
    have hr : 0 ≤ roundHalfEven (q * 1000) :=
      roundHalfEven_nonneg (mul_nonneg hq (by norm_num))
    obtain ⟨M, hM⟩ : ∃ M : ℕ, roundHalfEven (q * 1000) = ((M : ℕ) : ℤ) :=
      ⟨(roundHalfEven (q * 1000)).toNat, (Int.toNat_of_nonneg hr).symm⟩
    refine ⟨M / 3600000, M % 3600000 / 60000, M % 3600000 % 60000 / 1000,
      M % 3600000 % 60000 % 1000, ?_, by omega, by omega, by omega, ?_, ?_, ?_, ?_⟩
    · rw [format_timestamp_srt, if_pos hq, hM, formatMilliseconds_spec]
    · rw [zfill_length]; omega
    · rw [zfill_length]
      have := natToStr_length_le_two (n := M % 3600000 / 60000) (by omega)
      omega
    · rw [zfill_length]
      have := natToStr_length_le_two (n := M % 3600000 % 60000 / 1000) (by omega)
      omega
    · rw [zfill_length]
      have := natToStr_length_le_three (n := M % 3600000 % 60000 % 1000) (by omega)
      omega
  · intro hq
    rw [format_timestamp_srt, if_neg (by exact not_le.mpr hq)]

/-- Witness for C10 at the concrete inputs `0` and `-1`. -/
theorem claim_C10_witness :
    (∃ h m s ms : ℕ,
        format_timestamp_srt (0 : ℚ) = .ok
          (zfill 2 (natToStr h) ++ ":" ++ zfill 2 (natToStr m) ++ ":"
            ++ zfill 2 (natToStr s) ++ "," ++ zfill 3 (natToStr ms))
        ∧ m < 60 ∧ s < 60 ∧ ms < 1000
        ∧ 2 ≤ (zfill 2 (natToStr h)).length
        ∧ (zfill 2 (natToStr m)).length = 2
        ∧ (zfill 2 (natToStr s)).length = 2
        ∧ (zfill 3 (natToStr ms)).length = 3)
    ∧ format_timestamp_srt (-1 : ℚ)
        = .error (.assertionError "non-negative timestamp expected") :=
  ⟨(claim_C10_srt_timestamp_assert_and_padding 0).1 (le_refl 0),
   (claim_C10_srt_timestamp_assert_and_padding (-1)).2 (by decide)⟩

/-! ### Store lemmas -/

theorem dbFirst_id {jobs : List ProcessingJob} {i : Nat} {j : ProcessingJob}
    (h : dbFirst jobs i = some j) : j.id = i := by
  have := List.find?_some h
  simpa using this

theorem dbFirst_mem {jobs : List ProcessingJob} {i : Nat} {j : ProcessingJob}
    (h : dbFirst jobs i = some j) : j ∈ jobs :=
  List.mem_of_find?_eq_some h

theorem dbFirst_dbUpdate_eq {jobs : List ProcessingJob} {i : Nat} {r : ProcessingJob}
    (j : ProcessingJob) (hr : dbFirst jobs i = some r) (hj : j.id = i) :
    dbFirst (dbUpdate jobs j) i = some j := by
  induction jobs with
  | nil => simp [dbFirst] at hr
  | cons a rest ih =>
    by_cases ha : a.id = i
    · simp [dbFirst, dbUpdate, ha, hj]
    · have hr' : dbFirst rest i = some r := by
        simpa [dbFirst, ha] using hr
      have ha' : ¬ a.id = j.id := by
        rw [hj]
        exact ha
      simpa [dbFirst, dbUpdate, ha, ha', hj] using ih hr'

theorem dbFirst_dbUpdate_ne {i : Nat} (jobs : List ProcessingJob)
    (j : ProcessingJob) (hj : j.id ≠ i) :
    dbFirst (dbUpdate jobs j) i = dbFirst jobs i := by
  induction jobs with
  | nil => rfl
  | cons a rest ih =>
    show List.find? (fun x => x.id == i)
        ((if a.id == j.id then j else a) :: dbUpdate rest j)
      = List.find? (fun x => x.id == i) (a :: rest)
    by_cases ha : a.id = j.id
    · rw [if_pos (by simpa using ha)]
      rw [List.find?_cons_of_neg _ (by simpa using hj)]
      rw [List.find?_cons_of_neg _ (by simpa using ha ▸ hj)]
      exact ih
    · rw [if_neg (by simpa using ha)]
      by_cases hai : a.id = i
      · rw [List.find?_cons_of_pos _ (by simpa using hai),
          List.find?_cons_of_pos _ (by simpa using hai)]
      · rw [List.find?_cons_of_neg _ (by simpa using hai),
          List.find?_cons_of_neg _ (by simpa using hai)]
        exact ih

theorem mem_dbUpdate {jobs : List ProcessingJob} {j r : ProcessingJob}
    (h : r ∈ dbUpdate jobs j) : r = j ∨ (r ∈ jobs ∧ r.id ≠ j.id) := by
  obtain ⟨a, ha, hr⟩ := List.mem_map.mp h
  by_cases hid : a.id = j.id
  · left
    rw [if_pos (by simpa using hid)] at hr
    exact hr.symm
  · right
    have : r = a := by
      rw [if_neg (by simpa using hid)] at hr
      exact hr.symm
    subst this
    exact ⟨ha, hid⟩

theorem dbUpdate_dbUpdate_same_id (jobs : List ProcessingJob) (j1 j2 : ProcessingJob)
    (h : j1.id = j2.id) : dbUpdate (dbUpdate jobs j1) j2 = dbUpdate jobs j2 := by
  unfold dbUpdate
  rw [List.map_map]
  apply List.map_congr_left
  intro r _
  show (if (if r.id == j1.id then j1 else r).id == j2.id then j2
      else (if r.id == j1.id then j1 else r))
    = if r.id == j2.id then j2 else r
  by_cases hr : r.id = j1.id
  · have h1 : (r.id == j1.id) = true := by simpa using hr
    have h2 : (j1.id == j2.id) = true := by simpa using h
    have h3 : (r.id == j2.id) = true := by simpa using hr.trans h
    simp [h1, h2, h3]
  · have h1 : (r.id == j1.id) = false := by simpa using hr
    simp [h1]

theorem length_dbUpdate (jobs : List ProcessingJob) (j : ProcessingJob) :
    (dbUpdate jobs j).length = jobs.length :=
  List.length_map ..

theorem relative_to_append (root p : FPath) : relative_to (root ++ p) root = .ok p := by
  unfold relative_to
  rw [if_pos (List.isPrefixOf_iff_prefix.mpr (List.prefix_append root p))]
  rw [List.drop_left]

theorem processed_dir_split (outfn : String) :
    PROCESSED_DIR ++ [outfn] = DATA_ROOT ++ ["processed", outfn] := by
  simp [PROCESSED_DIR]

/-! ### Adapter lemmas -/

theorem merge_ok_val {fs : FS} {ro : Except Exc Unit} {ins : List FPath} {outp v : FPath}
    (h : (merge_and_normalize_audio fs ro ins outp).1 = .ok v) : v = outp := by
  unfold merge_and_normalize_audio at h
  by_cases h1 : ins.isEmpty
  · simp [h1] at h
  · cases hf : ins.find? (fun f => !(fsExists fs f)) with
    | some f => simp [h1, hf] at h
    | none =>
      cases ro with
      | ok u => simp [h1, hf] at h; exact h.symm
      | error e => simp [h1, hf] at h

theorem video_ok_val {fs : FS} {ro : Except Exc Unit} {a outp v : FPath}
    {res fg bg : String} {bgi : Option FPath}
    (h : (generate_waveform_video fs ro a outp res fg bg bgi).1 = .ok v) : v = outp := by
  unfold generate_waveform_video at h
  by_cases h1 : fsExists fs a
  · cases ro with
    | ok u => simp [h1] at h; exact h.symm
    | error e => simp [h1] at h
  · simp [h1] at h

/-! ### Task-run characterisation lemmas -/

theorem process_audio_run_ok (st : Store) (fs : FS) (ro : Except Exc Unit)
    (job_id : Nat) (inputs : List String) (outfn : String) (job : ProcessingJob) (v : FPath)
    (hjob : dbFirst st.jobs job_id = some job)
    (hok : (merge_and_normalize_audio fs ro
        (inputs.map (fun p => DATA_ROOT ++ strToPath p)) (PROCESSED_DIR ++ [outfn])).1 = .ok v) :
    process_audio_task_run st fs ro job_id inputs outfn =
      ({ st with jobs := dbUpdate st.jobs { job with
          status := JobStatus.COMPLETED,
          output_file_path := some (pathToString ["processed", outfn]),
          error_message := none } },
        .ok (pathToString ["processed", outfn])) := by
  have hv : v = PROCESSED_DIR ++ [outfn] := merge_ok_val hok
  subst hv
  have hok' := hok
  rw [processed_dir_split] at hok'
  simp only [process_audio_task_run, process_audio_task_body, hjob, processed_dir_split, hok',
    relative_to_append]
  rw [dbUpdate_dbUpdate_same_id st.jobs ({ job with status := JobStatus.PROCESSING }) ({ job with status := JobStatus.COMPLETED, output_file_path := some (pathToString ["processed", outfn]), error_message := none }) rfl]

theorem process_audio_run_err (st : Store) (fs : FS) (ro : Except Exc Unit)
    (job_id : Nat) (inputs : List String) (outfn : String) (job : ProcessingJob) (e : Exc)
    (hjob : dbFirst st.jobs job_id = some job)
    (hne : job_id ≠ 0)
    (herr : (merge_and_normalize_audio fs ro
        (inputs.map (fun p => DATA_ROOT ++ strToPath p)) (PROCESSED_DIR ++ [outfn])).1 = .error e) :
    process_audio_task_run st fs ro job_id inputs outfn =
      ({ st with jobs := dbUpdate st.jobs { job with
          status := JobStatus.FAILED,
          error_message := some ("Task failed: " ++ pyTake 500 e.toStr) } },
        .error e) := by
  have hid : job.id = job_id := dbFirst_id hjob
  have herr' := herr
  rw [processed_dir_split] at herr'
  simp only [process_audio_task_run, process_audio_task_body, hjob, processed_dir_split, herr']
  rw [dbUpdate_dbUpdate_same_id st.jobs ({ job with status := JobStatus.PROCESSING }) ({ job with status := JobStatus.PROCESSING, error_message := some (mediaTaskErrMsg e) }) rfl]
  simp only [on_failure, if_pos hne]
  rw [dbFirst_dbUpdate_eq ({ job with status := JobStatus.PROCESSING, error_message := some (mediaTaskErrMsg e) }) hjob hid]
  dsimp only
  rw [dbUpdate_dbUpdate_same_id st.jobs ({ job with status := JobStatus.PROCESSING, error_message := some (mediaTaskErrMsg e) }) ({ job with status := JobStatus.FAILED, error_message := some ("Task failed: " ++ pyTake 500 e.toStr) }) rfl]

theorem process_audio_run_notfound (st : Store) (fs : FS) (ro : Except Exc Unit)
    (job_id : Nat) (inputs : List String) (outfn : String)
    (hjob : dbFirst st.jobs job_id = none) :
    process_audio_task_run st fs ro job_id inputs outfn
      = (st, .error (.valueError ("Job " ++ natToStr job_id ++ " not found."))) := by
  by_cases h0 : job_id = 0
  · subst h0
    simp [process_audio_task_run, process_audio_task_body, hjob, on_failure]
  · simp [process_audio_task_run, process_audio_task_body, hjob, on_failure, h0]

theorem generate_video_run_name_error (st : Store) (fs : FS) (ro : Except Exc Unit)
    (job_id : Nat) (audiostr outfn res fg bg : String) (bgi : Option String)
    (job : ProcessingJob)
    (hjob : dbFirst st.jobs job_id = some job)
    (hne : job_id ≠ 0) :
    generate_video_task_run st fs ro job_id audiostr outfn res fg bg bgi =
      ({ st with jobs := dbUpdate st.jobs { job with
          status := JobStatus.FAILED,
          error_message := some ("Task failed: "
            ++ pyTake 500 "name 'generate_waveform_video' is not defined") } },
        .error (.other "name 'generate_waveform_video' is not defined")) := by
  have hid : job.id = job_id := dbFirst_id hjob
  simp only [generate_video_task_run, generate_video_task_body,
    generate_waveform_video_lookup, hjob]
  rw [dbUpdate_dbUpdate_same_id st.jobs ({ job with status := JobStatus.PROCESSING }) ({ job with status := JobStatus.PROCESSING, error_message := some (mediaTaskErrMsg (.other "name 'generate_waveform_video' is not defined")) }) rfl]
  simp only [on_failure, if_pos hne]
  rw [dbFirst_dbUpdate_eq ({ job with status := JobStatus.PROCESSING, error_message := some (mediaTaskErrMsg (.other "name 'generate_waveform_video' is not defined")) }) hjob hid]
  dsimp only
  simp only [Exc.toStr]
  rw [dbUpdate_dbUpdate_same_id st.jobs ({ job with status := JobStatus.PROCESSING, error_message := some (mediaTaskErrMsg (.other "name 'generate_waveform_video' is not defined")) }) ({ job with status := JobStatus.FAILED, error_message := some ("Task failed: " ++ pyTake 500 "name 'generate_waveform_video' is not defined") }) rfl]

theorem generate_video_run_notfound (st : Store) (fs : FS) (ro : Except Exc Unit)
    (job_id : Nat) (audiostr outfn res fg bg : String) (bgi : Option String)
    (hjob : dbFirst st.jobs job_id = none) :
    generate_video_task_run st fs ro job_id audiostr outfn res fg bg bgi
      = (st, .error (.valueError ("Job " ++ natToStr job_id ++ " not found."))) := by
  by_cases h0 : job_id = 0
  · subst h0
    simp [generate_video_task_run, generate_video_task_body, hjob, on_failure]
  · simp [generate_video_task_run, generate_video_task_body, hjob, on_failure, h0]

theorem transcribe_run_err (st : Store) (fs : FS) (ms : Option WhisperModel)
    (ini : Except Exc WhisperModel) (eng : Except Exc (List Segment × TranscriptionInfo))
    (job_id : Nat) (audiostr basename : String) (job : ProcessingJob) (e : Exc)
    (hjob : dbFirst st.jobs job_id = some job)
    (hne : job_id ≠ 0)
    (herr : (transcribe_audio fs ms ini eng (DATA_ROOT ++ strToPath audiostr)).result
      = .error e) :
    transcribe_audio_task_run st fs ms ini eng job_id audiostr basename =
      ({ st with jobs := dbUpdate st.jobs { job with
          status := JobStatus.FAILED,
          error_message := some ("Task failed: " ++ pyTake 500 e.toStr) } },
        (transcribe_audio fs ms ini eng (DATA_ROOT ++ strToPath audiostr)).state, .error e) := by
  have hid : job.id = job_id := dbFirst_id hjob
  simp only [transcribe_audio_task_run, transcribe_audio_task_body, hjob, herr]
  rw [dbUpdate_dbUpdate_same_id st.jobs ({ job with status := JobStatus.PROCESSING }) ({ job with status := JobStatus.PROCESSING, error_message := some (transcribeTaskErrMsg e) }) rfl]
  simp only [on_failure, if_pos hne]
  rw [dbFirst_dbUpdate_eq ({ job with status := JobStatus.PROCESSING, error_message := some (transcribeTaskErrMsg e) }) hjob hid]
  dsimp only
  rw [dbUpdate_dbUpdate_same_id st.jobs ({ job with status := JobStatus.PROCESSING, error_message := some (transcribeTaskErrMsg e) }) ({ job with status := JobStatus.FAILED, error_message := some ("Task failed: " ++ pyTake 500 e.toStr) }) rfl]

theorem transcribe_run_unpack (st : Store) (fs : FS) (ms : Option WhisperModel)
    (ini : Except Exc WhisperModel) (eng : Except Exc (List Segment × TranscriptionInfo))
    (job_id : Nat) (audiostr basename : String) (job : ProcessingJob) (pr : String × String)
    (hjob : dbFirst st.jobs job_id = some job)
    (hne : job_id ≠ 0)
    (hok : (transcribe_audio fs ms ini eng (DATA_ROOT ++ strToPath audiostr)).result
      = .ok pr) :
    transcribe_audio_task_run st fs ms ini eng job_id audiostr basename =
      ({ st with jobs := dbUpdate st.jobs { job with
          status := JobStatus.FAILED,
          error_message := some ("Task failed: "
            ++ pyTake 500 "not enough values to unpack (expected 3, got 2)") } },
        (transcribe_audio fs ms ini eng (DATA_ROOT ++ strToPath audiostr)).state,
        .error (.valueError "not enough values to unpack (expected 3, got 2)")) := by
  have hid : job.id = job_id := dbFirst_id hjob
  simp only [transcribe_audio_task_run, transcribe_audio_task_body, hjob, hok, unpackThree]
  rw [dbUpdate_dbUpdate_same_id st.jobs ({ job with status := JobStatus.PROCESSING }) ({ job with status := JobStatus.PROCESSING, error_message := some (transcribeTaskErrMsg (.valueError "not enough values to unpack (expected 3, got 2)")) }) rfl]
  simp only [on_failure, if_pos hne]
  rw [dbFirst_dbUpdate_eq ({ job with status := JobStatus.PROCESSING, error_message := some (transcribeTaskErrMsg (.valueError "not enough values to unpack (expected 3, got 2)")) }) hjob hid]
  dsimp only
  simp only [Exc.toStr]
  rw [dbUpdate_dbUpdate_same_id st.jobs ({ job with status := JobStatus.PROCESSING, error_message := some (transcribeTaskErrMsg (.valueError "not enough values to unpack (expected 3, got 2)")) }) ({ job with status := JobStatus.FAILED, error_message := some ("Task failed: " ++ pyTake 500 "not enough values to unpack (expected 3, got 2)") }) rfl]

theorem transcribe_run_notfound (st : Store) (fs : FS) (ms : Option WhisperModel)
    (ini : Except Exc WhisperModel) (eng : Except Exc (List Segment × TranscriptionInfo))
    (job_id : Nat) (audiostr basename : String)
    (hjob : dbFirst st.jobs job_id = none) :
    transcribe_audio_task_run st fs ms ini eng job_id audiostr basename
      = (st, ms, .error (.valueError ("Job " ++ natToStr job_id ++ " not found."))) := by
  by_cases h0 : job_id = 0
  · subst h0
    simp [transcribe_audio_task_run, transcribe_audio_task_body, hjob, on_failure]
  · simp [transcribe_audio_task_run, transcribe_audio_task_body, hjob, on_failure, h0]

/-! ### Claim theorems: failure reconciliation -/

theorem pyTake_length_le (n : Nat) (s : String) : (pyTake n s).length ≤ n := by
  show (s.data.take n).length ≤ n
  exact List.length_take_le ..

theorem taskFailedMsg_spec (e : Exc) :
    ("Task failed: " ++ pyTake 500 e.toStr) ≠ ""
    ∧ ("Task failed: " ++ pyTake 500 e.toStr).length ≤ 513 := by
  have h13 : ("Task failed: " : String).length = 13 := rfl
  constructor
  · intro h
    have hlen := congrArg String.length h
    rw [String.length_append, h13] at hlen
    simp at hlen
  · rw [String.length_append, h13]
    have := pyTake_length_le 500 e.toStr
    omega

/-- C1: in every delivered task execution whose job row exists and whose
adapter invocation raises (any exception type), the job ends FAILED with a
non-null, non-empty error message of bounded length (at most
`"Task failed: ".length + 500 = 513` characters); no such execution leaves
the job in PROCESSING.  Stated for all three task types. -/
theorem claim_C1_failures_reach_FAILED :
    (∀ (st : Store) (fs : FS) (ro : Except Exc Unit) (job_id : Nat)
      (inputs : List String) (outfn : String) (job : ProcessingJob) (e : Exc),
      WellFormedStore st → dbFirst st.jobs job_id = some job →
      (merge_and_normalize_audio fs ro (inputs.map fun p => DATA_ROOT ++ strToPath p)
        (PROCESSED_DIR ++ [outfn])).1 = .error e →
      ∃ j msg, dbFirst (process_audio_task_run st fs ro job_id inputs outfn).1.jobs job_id = some j
        ∧ j.status = JobStatus.FAILED ∧ j.error_message = some msg
        ∧ msg ≠ "" ∧ msg.length ≤ 513)
    ∧ (∀ (st : Store) (fs : FS) (ro : Except Exc Unit) (job_id : Nat)
      (audiostr outfn res fg bg : String) (bgi : Option String) (job : ProcessingJob) (e : Exc),
      WellFormedStore st → dbFirst st.jobs job_id = some job →
      (generate_waveform_video fs ro (DATA_ROOT ++ strToPath audiostr) (PROCESSED_DIR ++ [outfn])
        res fg bg (bgi.map (fun x => DATA_ROOT ++ strToPath x))).1 = .error e →
      ∃ j msg, dbFirst (generate_video_task_run st fs ro job_id audiostr outfn
          res fg bg bgi).1.jobs job_id = some j
        ∧ j.status = JobStatus.FAILED ∧ j.error_message = some msg
        ∧ msg ≠ "" ∧ msg.length ≤ 513)
    ∧ (∀ (st : Store) (fs : FS) (ms : Option WhisperModel) (ini : Except Exc WhisperModel)
      (eng : Except Exc (List Segment × TranscriptionInfo)) (job_id : Nat)
      (audiostr basename : String) (job : ProcessingJob) (e : Exc),
      WellFormedStore st → dbFirst st.jobs job_id = some job →
      (transcribe_audio fs ms ini eng (DATA_ROOT ++ strToPath audiostr)).result = .error e →
      ∃ j msg, dbFirst (transcribe_audio_task_run st fs ms ini eng job_id audiostr
          basename).1.jobs job_id = some j
        ∧ j.status = JobStatus.FAILED ∧ j.error_message = some msg
        ∧ msg ≠ "" ∧ msg.length ≤ 513)
    ∧ (∀ (st : Store) (fs : FS) (ms : Option WhisperModel) (ini : Except Exc WhisperModel)
      (eng : Except Exc (List Segment × TranscriptionInfo)) (job_id : Nat)
      (audiostr basename : String) (job : ProcessingJob) (pr : String × String),
      WellFormedStore st → dbFirst st.jobs job_id = some job →
      (transcribe_audio fs ms ini eng (DATA_ROOT ++ strToPath audiostr)).result = .ok pr →
      ∃ j msg, dbFirst (transcribe_audio_task_run st fs ms ini eng job_id audiostr
          basename).1.jobs job_id = some j
        ∧ j.status = JobStatus.FAILED ∧ j.error_message = some msg
        ∧ msg ≠ "" ∧ msg.length ≤ 513) := by
  refine ⟨?_, ?_, ?_, ?_⟩
  · intro st fs ro job_id inputs outfn job e hwf hjob herr
    have hid : job.id = job_id := dbFirst_id hjob
    have hne : job_id ≠ 0 := by
      have := hwf job (dbFirst_mem hjob)
      omega
    rw [process_audio_run_err st fs ro job_id inputs outfn job e hjob hne herr]
    exact ⟨{ job with
        status := JobStatus.FAILED,
        error_message := some ("Task failed: " ++ pyTake 500 e.toStr) },
      "Task failed: " ++ pyTake 500 e.toStr,
      dbFirst_dbUpdate_eq _ hjob hid, rfl, rfl,
      (taskFailedMsg_spec e).1, (taskFailedMsg_spec e).2⟩
  · intro st fs ro job_id audiostr outfn res fg bg bgi job e hwf hjob herr
    have hid : job.id = job_id := dbFirst_id hjob
    have hne : job_id ≠ 0 := by
      have := hwf job (dbFirst_mem hjob)
      omega
    rw [generate_video_run_name_error st fs ro job_id audiostr outfn res fg bg bgi job hjob hne]
    exact ⟨{ job with
        status := JobStatus.FAILED,
        error_message := some ("Task failed: "
          ++ pyTake 500 "name 'generate_waveform_video' is not defined") },
      "Task failed: " ++ pyTake 500 "name 'generate_waveform_video' is not defined",
      dbFirst_dbUpdate_eq _ hjob hid, rfl, rfl,
      (taskFailedMsg_spec (.other "name 'generate_waveform_video' is not defined")).1,
      (taskFailedMsg_spec (.other "name 'generate_waveform_video' is not defined")).2⟩
  · intro st fs ms ini eng job_id audiostr basename job e hwf hjob herr
    have hid : job.id = job_id := dbFirst_id hjob
    have hne : job_id ≠ 0 := by
      have := hwf job (dbFirst_mem hjob)
      omega
    rw [transcribe_run_err st fs ms ini eng job_id audiostr basename job e hjob hne herr]
    exact ⟨{ job with
        status := JobStatus.FAILED,
        error_message := some ("Task failed: " ++ pyTake 500 e.toStr) },
      "Task failed: " ++ pyTake 500 e.toStr,
      dbFirst_dbUpdate_eq _ hjob hid, rfl, rfl,
      (taskFailedMsg_spec e).1, (taskFailedMsg_spec e).2⟩
  · intro st fs ms ini eng job_id audiostr basename job pr hwf hjob hok
    have hid : job.id = job_id := dbFirst_id hjob
    have hne : job_id ≠ 0 := by
      have := hwf job (dbFirst_mem hjob)
      omega
    rw [transcribe_run_unpack st fs ms ini eng job_id audiostr basename job pr hjob hne hok]
    exact ⟨{ job with
        status := JobStatus.FAILED,
        error_message := some ("Task failed: "
          ++ pyTake 500 "not enough values to unpack (expected 3, got 2)") },
      "Task failed: " ++ pyTake 500 "not enough values to unpack (expected 3, got 2)",
      dbFirst_dbUpdate_eq _ hjob hid, rfl, rfl,
      (taskFailedMsg_spec (.valueError "not enough values to unpack (expected 3, got 2)")).1,
      (taskFailedMsg_spec (.valueError "not enough values to unpack (expected 3, got 2)")).2⟩

/-- Witness for C1: a concrete audio-processing execution (job row id 1,
empty filesystem, so the adapter raises `FileNotFoundError`) ends FAILED
with a non-empty bounded message. -/
theorem claim_C1_witness :
    ∃ j msg, dbFirst (process_audio_task_run ⟨[⟨1, "audio_processing", JobStatus.PENDING,
        none, none⟩], []⟩ [] (.ok ()) 1 ["uploads/s/a.mp3"] "1_processed.mp3").1.jobs 1 = some j
      ∧ j.status = JobStatus.FAILED ∧ j.error_message = some msg
      ∧ msg ≠ "" ∧ msg.length ≤ 513 :=
  claim_C1_failures_reach_FAILED.1 ⟨[⟨1, "audio_processing", JobStatus.PENDING, none, none⟩], []⟩
    [] (.ok ()) 1 ["uploads/s/a.mp3"] "1_processed.mp3"
    ⟨1, "audio_processing", JobStatus.PENDING, none, none⟩
    (.fileNotFound "Input file not found: data/uploads/s/a.mp3")
    (by decide) (by decide) (by decide)

/-- C3 (code bug): `generate_video_task` calls `generate_waveform_video`
(`workers/tasks.py` line 182) but the module never imports that name, so
even when the job row exists, the source audio exists and the external
tool would succeed (the faithful adapter, invoked directly, returns the
output path), the task raises
`NameError: name 'generate_waveform_video' is not defined` and the job
ends FAILED with that stringified error — it can never reach COMPLETED
with the claimed relative output path. -/
theorem claim_C3_video_name_error :
    fsExists [["data", "processed", "1_processed.mp3"]]
        (DATA_ROOT ++ strToPath "processed/1_processed.mp3") = true
    ∧ (generate_waveform_video [["data", "processed", "1_processed.mp3"]] (.ok ())
        (DATA_ROOT ++ strToPath "processed/1_processed.mp3")
        (PROCESSED_DIR ++ ["1_waveform.mp4"]) "1280x720" "white" "black" none).1
      = .ok (PROCESSED_DIR ++ ["1_waveform.mp4"])
    ∧ (generate_video_task_run ⟨[⟨1, "video_generation", JobStatus.PENDING, none, none⟩], []⟩
        [["data", "processed", "1_processed.mp3"]] (.ok ()) 1 "processed/1_processed.mp3"
        "1_waveform.mp4" "1280x720" "white" "black" none).2
      = .error (.other "name 'generate_waveform_video' is not defined")
    ∧ dbFirst (generate_video_task_run
          ⟨[⟨1, "video_generation", JobStatus.PENDING, none, none⟩], []⟩
          [["data", "processed", "1_processed.mp3"]] (.ok ()) 1 "processed/1_processed.mp3"
          "1_waveform.mp4" "1280x720" "white" "black" none).1.jobs 1
      = some ⟨1, "video_generation", JobStatus.FAILED, none,
          some "Task failed: name 'generate_waveform_video' is not defined"⟩ := by
  decide

/-- C6: re-delivering the identical audio-processing task (same job id and
arguments, inputs still present) to a job completed by the first delivery
returns the same deterministic output path, leaves the job COMPLETED, and
leaves the store exactly as after the first delivery — in particular no
duplicate job rows accumulate (row count is unchanged). -/
theorem claim_C6_idempotent_rerun (st : Store) (fs : FS) (job_id : Nat)
    (inputs : List String) (outfn : String) (job : ProcessingJob)
    (hjob : dbFirst st.jobs job_id = some job)
    (hne : inputs ≠ [])
    (hins : ∀ p ∈ inputs, fsExists fs (DATA_ROOT ++ strToPath p) = true) :
    (process_audio_task_run st fs (.ok ()) job_id inputs outfn).2
        = .ok (pathToString ["processed", outfn])
    ∧ process_audio_task_run (process_audio_task_run st fs (.ok ()) job_id inputs outfn).1
        fs (.ok ()) job_id inputs outfn
      = ((process_audio_task_run st fs (.ok ()) job_id inputs outfn).1,
        .ok (pathToString ["processed", outfn]))
    ∧ (process_audio_task_run st fs (.ok ()) job_id inputs outfn).1.jobs.length
        = st.jobs.length
    ∧ ∃ j, dbFirst (process_audio_task_run st fs (.ok ()) job_id inputs outfn).1.jobs job_id
        = some j ∧ j.status = JobStatus.COMPLETED := by
  have hid : job.id = job_id := dbFirst_id hjob
  have hok : (merge_and_normalize_audio fs (.ok ())
      (inputs.map fun p => DATA_ROOT ++ strToPath p) (PROCESSED_DIR ++ [outfn])).1
      = .ok (PROCESSED_DIR ++ [outfn]) := by
    have hempty : (inputs.map fun p => DATA_ROOT ++ strToPath p).isEmpty = false := by
      cases inputs with
      | nil => exact absurd rfl hne
      | cons a rest => rfl
    have hfind : (inputs.map fun p => DATA_ROOT ++ strToPath p).find?
        (fun f => !(fsExists fs f)) = none := by
      rw [List.find?_eq_none]
      intro x hx
      obtain ⟨p, hp, hpx⟩ := List.mem_map.mp hx
      subst hpx
      simp [hins p hp]
    simp [merge_and_normalize_audio, hempty, hfind]
  have hrun1 := process_audio_run_ok st fs (.ok ()) job_id inputs outfn job _ hjob hok
  have hjob2 : dbFirst (dbUpdate st.jobs ({ job with
      status := JobStatus.COMPLETED,
      output_file_path := some (pathToString ["processed", outfn]),
      error_message := none })) job_id = some ({ job with
      status := JobStatus.COMPLETED,
      output_file_path := some (pathToString ["processed", outfn]),
      error_message := none }) := dbFirst_dbUpdate_eq (r := job) _ hjob hid
  refine ⟨?_, ?_, ?_, ?_⟩
  · rw [hrun1]
  · have hrun2 := process_audio_run_ok ({ st with jobs := dbUpdate st.jobs ({ job with
        status := JobStatus.COMPLETED,
        output_file_path := some (pathToString ["processed", outfn]),
        error_message := none }) }) fs (.ok ()) job_id inputs outfn _ _ hjob2 hok
    rw [hrun1, hrun2]
    dsimp only
    rw [dbUpdate_dbUpdate_same_id st.jobs ({ job with status := JobStatus.COMPLETED, output_file_path := some (pathToString ["processed", outfn]), error_message := none }) ({ job with status := JobStatus.COMPLETED, output_file_path := some (pathToString ["processed", outfn]), error_message := none }) rfl]
  · rw [hrun1]
    exact length_dbUpdate ..
  · rw [hrun1]
    exact ⟨_, hjob2, rfl⟩

/-- Witness for C6 at a concrete store, filesystem and argument list. -/
theorem claim_C6_witness :
    (process_audio_task_run ⟨[⟨1, "audio_processing", JobStatus.PENDING, none, none⟩], []⟩
        [["data", "uploads", "s", "a.mp3"]] (.ok ()) 1 ["uploads/s/a.mp3"] "1_processed.mp3").2
      = .ok (pathToString ["processed", "1_processed.mp3"])
    ∧ process_audio_task_run (process_audio_task_run
          ⟨[⟨1, "audio_processing", JobStatus.PENDING, none, none⟩], []⟩
          [["data", "uploads", "s", "a.mp3"]] (.ok ()) 1 ["uploads/s/a.mp3"]
          "1_processed.mp3").1
        [["data", "uploads", "s", "a.mp3"]] (.ok ()) 1 ["uploads/s/a.mp3"] "1_processed.mp3"
      = ((process_audio_task_run ⟨[⟨1, "audio_processing", JobStatus.PENDING, none, none⟩], []⟩
          [["data", "uploads", "s", "a.mp3"]] (.ok ()) 1 ["uploads/s/a.mp3"]
          "1_processed.mp3").1,
        .ok (pathToString ["processed", "1_processed.mp3"]))
    ∧ (process_audio_task_run ⟨[⟨1, "audio_processing", JobStatus.PENDING, none, none⟩], []⟩
        [["data", "uploads", "s", "a.mp3"]] (.ok ()) 1 ["uploads/s/a.mp3"]
        "1_processed.mp3").1.jobs.length
      = (⟨[⟨1, "audio_processing", JobStatus.PENDING, none, none⟩], []⟩ : Store).jobs.length
    ∧ ∃ j, dbFirst (process_audio_task_run
          ⟨[⟨1, "audio_processing", JobStatus.PENDING, none, none⟩], []⟩
          [["data", "uploads", "s", "a.mp3"]] (.ok ()) 1 ["uploads/s/a.mp3"]
          "1_processed.mp3").1.jobs 1 = some j
        ∧ j.status = JobStatus.COMPLETED :=
  claim_C6_idempotent_rerun ⟨[⟨1, "audio_processing", JobStatus.PENDING, none, none⟩], []⟩
    [["data", "uploads", "s", "a.mp3"]] 1 ["uploads/s/a.mp3"] "1_processed.mp3"
    ⟨1, "audio_processing", JobStatus.PENDING, none, none⟩
    (by decide) (by decide) (by decide)

/-- C2 (code bug): `transcribe_audio` returns a 2-tuple (plain text, SRT
text) while `transcribe_audio_task` unpacks three names
(`plain_text, srt_text, language = transcribe_audio(...)`), so even when
the source audio exists, the engine is available and decoding succeeds —
here with an empty segment list, giving the 2-tuple `("", "")` — the task
raises `ValueError` at the unpacking, the job ends FAILED instead of
COMPLETED, and no Transcript row (hence no detected language) is ever
persisted. -/
theorem claim_C2_transcription_language_bug :
    (transcribe_audio [["data", "processed", "1_processed.mp3"]] (some WhisperModel.loaded)
        (.ok WhisperModel.loaded) (.ok ([], ⟨"en", 0, 0⟩))
        (DATA_ROOT ++ strToPath "processed/1_processed.mp3")).result = .ok ("", "")
    ∧ (transcribe_audio_task_run ⟨[⟨1, "transcription", JobStatus.PENDING, none, none⟩], []⟩
        [["data", "processed", "1_processed.mp3"]] (some WhisperModel.loaded)
        (.ok WhisperModel.loaded) (.ok ([], ⟨"en", 0, 0⟩)) 1 "processed/1_processed.mp3"
        "ep1").2.2 = .error (.valueError "not enough values to unpack (expected 3, got 2)")
    ∧ dbFirst (transcribe_audio_task_run ⟨[⟨1, "transcription", JobStatus.PENDING, none, none⟩], []⟩
        [["data", "processed", "1_processed.mp3"]] (some WhisperModel.loaded)
        (.ok WhisperModel.loaded) (.ok ([], ⟨"en", 0, 0⟩)) 1 "processed/1_processed.mp3"
        "ep1").1.jobs 1
      = some ⟨1, "transcription", JobStatus.FAILED, none,
          some "Task failed: not enough values to unpack (expected 3, got 2)"⟩
    ∧ (transcribe_audio_task_run ⟨[⟨1, "transcription", JobStatus.PENDING, none, none⟩], []⟩
        [["data", "processed", "1_processed.mp3"]] (some WhisperModel.loaded)
        (.ok WhisperModel.loaded) (.ok ([], ⟨"en", 0, 0⟩)) 1 "processed/1_processed.mp3"
        "ep1").1.transcripts = [] := by
  decide

/-- C5 counterexample: a job completed by a first delivery is flipped to
FAILED by a re-delivered execution of the same task whose inputs have
meanwhile disappeared — a terminal status does transition again. -/
theorem claim_C5_counterexample :
    (dbFirst (runOps ⟨[⟨1, "audio_processing", JobStatus.PENDING, none, none⟩], []⟩
        [PipelineOp.audio [["data", "uploads", "s", "a.mp3"]] (.ok ()) 1 ["uploads/s/a.mp3"]
          "1_processed.mp3"]).jobs 1).map (fun j => j.status) = some JobStatus.COMPLETED
    ∧ (dbFirst (runOps ⟨[⟨1, "audio_processing", JobStatus.PENDING, none, none⟩], []⟩
        [PipelineOp.audio [["data", "uploads", "s", "a.mp3"]] (.ok ()) 1 ["uploads/s/a.mp3"]
          "1_processed.mp3",
         PipelineOp.audio [] (.ok ()) 1 ["uploads/s/a.mp3"]
          "1_processed.mp3"]).jobs 1).map (fun j => j.status) = some JobStatus.FAILED := by
  decide

/-- C5 amended: in a well-formed store, a job's row — in particular a
terminal COMPLETED/FAILED status — is never changed by a pipeline
execution targeting a different job id; only a re-delivered or
re-submitted execution for the same job id re-processes the row (and, as
the counterexample shows, may then end in a different terminal state). -/
theorem claim_C5_amended_terminal_until_redelivery (st : Store) (op : PipelineOp) (i : Nat)
    (j : ProcessingJob) (hwf : WellFormedStore st) (hne : op.jobId ≠ i)
    (hj : dbFirst st.jobs i = some j) :
    dbFirst (runOp st op).jobs i = some j := by
  cases op with
  | audio fs ro job_id inputs outfn =>
    show dbFirst (process_audio_task_run st fs ro job_id inputs outfn).1.jobs i = some j
    cases hjob : dbFirst st.jobs job_id with
    | none =>
      rw [process_audio_run_notfound st fs ro job_id inputs outfn hjob]
      exact hj
    | some job =>
      have hid : job.id = job_id := dbFirst_id hjob
      have hne0 : job_id ≠ 0 := by
        have := hwf job (dbFirst_mem hjob)
        omega
      have hnei : job.id ≠ i := by
        rw [hid]
        exact hne
      cases hm : (merge_and_normalize_audio fs ro
          (inputs.map fun p => DATA_ROOT ++ strToPath p) (PROCESSED_DIR ++ [outfn])).1 with
      | ok v =>
        have hv := merge_ok_val hm
        subst hv
        rw [process_audio_run_ok st fs ro job_id inputs outfn job _ hjob hm]
        rw [dbFirst_dbUpdate_ne st.jobs ({ job with status := JobStatus.COMPLETED, output_file_path := some (pathToString ["processed", outfn]), error_message := none }) hnei]
        exact hj
      | error e =>
        rw [process_audio_run_err st fs ro job_id inputs outfn job e hjob hne0 hm]
        rw [dbFirst_dbUpdate_ne st.jobs ({ job with status := JobStatus.FAILED, error_message := some ("Task failed: " ++ pyTake 500 e.toStr) }) hnei]
        exact hj
  | video fs ro job_id audiostr outfn res fg bg bgi =>
    show dbFirst (generate_video_task_run st fs ro job_id audiostr outfn
        res fg bg bgi).1.jobs i = some j
    cases hjob : dbFirst st.jobs job_id with
    | none =>
      rw [generate_video_run_notfound st fs ro job_id audiostr outfn res fg bg bgi hjob]
      exact hj
    | some job =>
      have hid : job.id = job_id := dbFirst_id hjob
      have hne0 : job_id ≠ 0 := by
        have := hwf job (dbFirst_mem hjob)
        omega
      have hnei : job.id ≠ i := by
        rw [hid]
        exact hne
      rw [generate_video_run_name_error st fs ro job_id audiostr outfn res fg bg bgi job
        hjob hne0]
      rw [dbFirst_dbUpdate_ne st.jobs ({ job with status := JobStatus.FAILED, error_message := some ("Task failed: " ++ pyTake 500 "name 'generate_waveform_video' is not defined") }) hnei]
      exact hj
  | transcription fs ms ini eng job_id audiostr basename =>
    show dbFirst (transcribe_audio_task_run st fs ms ini eng job_id audiostr
        basename).1.jobs i = some j
    cases hjob : dbFirst st.jobs job_id with
    | none =>
      rw [transcribe_run_notfound st fs ms ini eng job_id audiostr basename hjob]
      exact hj
    | some job =>
      have hid : job.id = job_id := dbFirst_id hjob
      have hne0 : job_id ≠ 0 := by
        have := hwf job (dbFirst_mem hjob)
        omega
      have hnei : job.id ≠ i := by
        rw [hid]
        exact hne
      cases hm : (transcribe_audio fs ms ini eng (DATA_ROOT ++ strToPath audiostr)).result with
      | ok pr =>
        rw [transcribe_run_unpack st fs ms ini eng job_id audiostr basename job pr hjob
          hne0 hm]
        rw [dbFirst_dbUpdate_ne st.jobs ({ job with status := JobStatus.FAILED, error_message := some ("Task failed: " ++ pyTake 500 "not enough values to unpack (expected 3, got 2)") }) hnei]
        exact hj
      | error e =>
        rw [transcribe_run_err st fs ms ini eng job_id audiostr basename job e hjob hne0 hm]
        rw [dbFirst_dbUpdate_ne st.jobs ({ job with status := JobStatus.FAILED, error_message := some ("Task failed: " ++ pyTake 500 e.toStr) }) hnei]
        exact hj

/-- Witness for the amended C5: an execution for job 2 leaves the
COMPLETED row of job 1 untouched. -/
theorem claim_C5_witness :
    dbFirst (runOp ⟨[⟨1, "audio_processing", JobStatus.COMPLETED,
        some "processed/1_processed.mp3", none⟩,
        ⟨2, "audio_processing", JobStatus.PENDING, none, none⟩], []⟩
      (PipelineOp.audio [] (.ok ()) 2 ["uploads/s/b.mp3"] "2_processed.mp3")).jobs 1
      = some ⟨1, "audio_processing", JobStatus.COMPLETED,
          some "processed/1_processed.mp3", none⟩ :=
  claim_C5_amended_terminal_until_redelivery
    ⟨[⟨1, "audio_processing", JobStatus.COMPLETED, some "processed/1_processed.mp3", none⟩,
      ⟨2, "audio_processing", JobStatus.PENDING, none, none⟩], []⟩
    (PipelineOp.audio [] (.ok ()) 2 ["uploads/s/b.mp3"] "2_processed.mp3") 1
    ⟨1, "audio_processing", JobStatus.COMPLETED, some "processed/1_processed.mp3", none⟩
    (by decide) (by decide) (by decide)

theorem storeConsistent_dbUpdate {st : Store} {job f : ProcessingJob} (ts : List Transcript)
    (hwf : WellFormedStore st) (hcons : ∀ j ∈ st.jobs, JobConsistent j)
    (hmem : job ∈ st.jobs) (hfid : f.id = job.id) (hfc : JobConsistent f) :
    StoreConsistent ⟨dbUpdate st.jobs f, ts⟩ := by
  constructor
  · intro r hr
    rcases mem_dbUpdate hr with rfl | ⟨hrmem, _⟩
    · rw [hfid]
      exact hwf job hmem
    · exact hwf r hrmem
  · intro r hr
    rcases mem_dbUpdate hr with rfl | ⟨hrmem, _⟩
    · exact hfc
    · exact hcons r hrmem

theorem storeConsistent_runOp (st : Store) (op : PipelineOp) (h : StoreConsistent st) :
    StoreConsistent (runOp st op) := by
  obtain ⟨hwf, hcons⟩ := h
  cases op with
  | audio fs ro job_id inputs outfn =>
    show StoreConsistent (process_audio_task_run st fs ro job_id inputs outfn).1
    cases hjob : dbFirst st.jobs job_id with
    | none =>
      rw [process_audio_run_notfound st fs ro job_id inputs outfn hjob]
      exact ⟨hwf, hcons⟩
    | some job =>
      have hid : job.id = job_id := dbFirst_id hjob
      have hmem := dbFirst_mem hjob
      have hne0 : job_id ≠ 0 := by
        have := hwf job hmem
        omega
      cases hm : (merge_and_normalize_audio fs ro
          (inputs.map fun p => DATA_ROOT ++ strToPath p) (PROCESSED_DIR ++ [outfn])).1 with
      | ok v =>
        have hv := merge_ok_val hm
        subst hv
        rw [process_audio_run_ok st fs ro job_id inputs outfn job _ hjob hm]
        exact storeConsistent_dbUpdate st.transcripts hwf hcons hmem rfl
          (by simp [JobConsistent])
      | error e =>
        rw [process_audio_run_err st fs ro job_id inputs outfn job e hjob hne0 hm]
        exact storeConsistent_dbUpdate st.transcripts hwf hcons hmem rfl
          (by simp [JobConsistent])
  | video fs ro job_id audiostr outfn res fg bg bgi =>
    show StoreConsistent (generate_video_task_run st fs ro job_id audiostr outfn
        res fg bg bgi).1
    cases hjob : dbFirst st.jobs job_id with
    | none =>
      rw [generate_video_run_notfound st fs ro job_id audiostr outfn res fg bg bgi hjob]
      exact ⟨hwf, hcons⟩
    | some job =>
      have hid : job.id = job_id := dbFirst_id hjob
      have hmem := dbFirst_mem hjob
      have hne0 : job_id ≠ 0 := by
        have := hwf job hmem
        omega
      rw [generate_video_run_name_error st fs ro job_id audiostr outfn res fg bg bgi job
        hjob hne0]
      exact storeConsistent_dbUpdate st.transcripts hwf hcons hmem rfl
        (by simp [JobConsistent])
  | transcription fs ms ini eng job_id audiostr basename =>
    show StoreConsistent (transcribe_audio_task_run st fs ms ini eng job_id audiostr
        basename).1
    cases hjob : dbFirst st.jobs job_id with
    | none =>
      rw [transcribe_run_notfound st fs ms ini eng job_id audiostr basename hjob]
      exact ⟨hwf, hcons⟩
    | some job =>
      have hid : job.id = job_id := dbFirst_id hjob
      have hmem := dbFirst_mem hjob
      have hne0 : job_id ≠ 0 := by
        have := hwf job hmem
        omega
      cases hm : (transcribe_audio fs ms ini eng (DATA_ROOT ++ strToPath audiostr)).result with
      | ok pr =>
        rw [transcribe_run_unpack st fs ms ini eng job_id audiostr basename job pr hjob
          hne0 hm]
        exact storeConsistent_dbUpdate st.transcripts hwf hcons hmem rfl
          (by simp [JobConsistent])
      | error e =>
        rw [transcribe_run_err st fs ms ini eng job_id audiostr basename job e hjob hne0 hm]
        exact storeConsistent_dbUpdate st.transcripts hwf hcons hmem rfl
          (by simp [JobConsistent])

/-- C4 counterexample: after the two-delivery sequence "complete the job,
then re-deliver while the inputs are gone", the job is FAILED yet still
carries the stale `output_file_path` of the first delivery alongside its
`error_message` — refuting "output_file_path non-null iff COMPLETED" and
"exactly one of {output set, error set}". -/
theorem claim_C4_counterexample :
    ¬ (∀ j ∈ (runOps ⟨[⟨1, "audio_processing", JobStatus.PENDING, none, none⟩], []⟩
        [PipelineOp.audio [["data", "uploads", "s", "a.mp3"]] (.ok ()) 1 ["uploads/s/a.mp3"]
          "1_processed.mp3",
         PipelineOp.audio [] (.ok ()) 1 ["uploads/s/a.mp3"] "1_processed.mp3"]).jobs,
        (j.output_file_path ≠ none ↔ j.status = JobStatus.COMPLETED)
        ∧ (j.status = JobStatus.COMPLETED ∨ j.status = JobStatus.FAILED →
            ((j.output_file_path ≠ none ∧ j.error_message = none)
              ∨ (j.output_file_path = none ∧ j.error_message ≠ none)))) := by
  decide

/-- C4 amended: after any sequence of pipeline operations starting from a
consistent store, every job row satisfies: PENDING rows carry neither
output nor error; no row rests in PROCESSING; COMPLETED rows carry an
output path and a null error; FAILED rows carry an error message (they
may additionally retain a stale output path from an earlier completed
delivery, so "exactly one of {output set, error set}" and the
only-if direction of "output non-null iff COMPLETED" do not hold). -/
theorem claim_C4_amended_field_invariant (ops : List PipelineOp) (st : Store)
    (h : StoreConsistent st) : StoreConsistent (runOps st ops) := by
  induction ops generalizing st with
  | nil => exact h
  | cons op rest ih => exact ih (runOp st op) (storeConsistent_runOp st op h)

/-- Witness for the amended C4 at a concrete store and operation list. -/
theorem claim_C4_witness :
    StoreConsistent (runOps ⟨[⟨1, "audio_processing", JobStatus.PENDING, none, none⟩], []⟩
      [PipelineOp.audio [["data", "uploads", "s", "a.mp3"]] (.ok ()) 1 ["uploads/s/a.mp3"]
        "1_processed.mp3",
       PipelineOp.audio [] (.ok ()) 1 ["uploads/s/a.mp3"] "1_processed.mp3"]) :=
  claim_C4_amended_field_invariant
    [PipelineOp.audio [["data", "uploads", "s", "a.mp3"]] (.ok ()) 1 ["uploads/s/a.mp3"]
      "1_processed.mp3",
     PipelineOp.audio [] (.ok ()) 1 ["uploads/s/a.mp3"] "1_processed.mp3"]
    ⟨[⟨1, "audio_processing", JobStatus.PENDING, none, none⟩], []⟩ (by decide)

/-- C7 counterexample: when the speech engine is unavailable, the
transcription adapter invoked on a nonexistent path raises the
engine-unavailable `RuntimeError` — not a "not found" error — because the
engine check precedes the existence check. -/
theorem claim_C7_counterexample :
    fsExists [] ["data", "missing.mp3"] = false
    ∧ (transcribe_audio [] none (.error (.runtimeError "init failed"))
        (.ok ([], ⟨"en", 0, 0⟩)) ["data", "missing.mp3"]).result
      = .error (.runtimeError "Whisper model is not initialized or failed to load.")
    ∧ (Exc.runtimeError "Whisper model is not initialized or failed to load.").isFileNotFound
      = false := by
  decide

/-- C7 amended: on a missing required input, the audio-merge and video
adapters always raise `FileNotFoundError` naming the missing path with
zero external-tool invocations; the transcription adapter does so provided
the speech engine is available (its engine check precedes the existence
check — with the engine unavailable it raises the engine-unavailable
error instead, still with zero engine invocations). -/
theorem claim_C7_amended_not_found_fails_fast :
    (∀ (fs : FS) (ro : Except Exc Unit) (inputs : List FPath) (outp f : FPath),
      f ∈ inputs → fsExists fs f = false →
      ∃ g, g ∈ inputs ∧ fsExists fs g = false
        ∧ merge_and_normalize_audio fs ro inputs outp
          = (.error (.fileNotFound ("Input file not found: " ++ pathToString g)), 0))
    ∧ (∀ (fs : FS) (ro : Except Exc Unit) (audio outp : FPath) (res fg bg : String)
        (bgi : Option FPath), fsExists fs audio = false →
      generate_waveform_video fs ro audio outp res fg bg bgi
        = (.error (.fileNotFound ("Audio input not found: " ++ pathToString audio)), 0))
    ∧ (∀ (fs : FS) (m : WhisperModel) (ini : Except Exc WhisperModel)
        (eng : Except Exc (List Segment × TranscriptionInfo)) (p : FPath),
      fsExists fs p = false →
      transcribe_audio fs (some m) ini eng p
        = ⟨.error (.fileNotFound ("Audio input file not found: " ++ pathToString p)),
            some m, 0⟩)
    ∧ (∀ (fs : FS) (e : Exc) (eng : Except Exc (List Segment × TranscriptionInfo)) (p : FPath),
      transcribe_audio fs none (.error e) eng p
        = ⟨.error (.runtimeError "Whisper model is not initialized or failed to load."),
            none, 0⟩) := by
  refine ⟨?_, ?_, ?_, ?_⟩
  · intro fs ro inputs outp f hf hmiss
    have hsome : (inputs.find? (fun x => !(fsExists fs x))).isSome := by
      rw [List.find?_isSome]
      exact ⟨f, hf, by simp [hmiss]⟩
    obtain ⟨g, hg⟩ := Option.isSome_iff_exists.mp hsome
    have hgmem := List.mem_of_find?_eq_some hg
    have hgmiss : fsExists fs g = false := by
      have := List.find?_some hg
      simpa using this
    have hempty : inputs.isEmpty = false := by
      cases inputs with
      | nil => simp at hf
      | cons a rest => rfl
    exact ⟨g, hgmem, hgmiss, by simp [merge_and_normalize_audio, hempty, hg]⟩
  · intro fs ro audio outp res fg bg bgi hmiss
    simp [generate_waveform_video, hmiss]
  · intro fs m ini eng p hmiss
    simp [transcribe_audio, get_whisper_model, hmiss]
  · intro fs e eng p
    rfl

/-- Witness for the amended C7 at concrete adapters' inputs. -/
theorem claim_C7_witness :
    (∃ g, g ∈ [["data", "uploads", "a.mp3"]] ∧ fsExists [] g = false
      ∧ merge_and_normalize_audio [] (.ok ()) [["data", "uploads", "a.mp3"]]
          (PROCESSED_DIR ++ ["o.mp3"])
        = (.error (.fileNotFound ("Input file not found: " ++ pathToString g)), 0))
    ∧ generate_waveform_video [] (.ok ()) ["data", "a.mp3"] (PROCESSED_DIR ++ ["o.mp4"])
        "1280x720" "white" "black" none
      = (.error (.fileNotFound ("Audio input not found: "
          ++ pathToString ["data", "a.mp3"])), 0)
    ∧ transcribe_audio [] (some WhisperModel.loaded) (.ok WhisperModel.loaded)
        (.ok ([], ⟨"en", 0, 0⟩)) ["data", "a.mp3"]
      = ⟨.error (.fileNotFound ("Audio input file not found: "
          ++ pathToString ["data", "a.mp3"])), some WhisperModel.loaded, 0⟩ :=
  ⟨claim_C7_amended_not_found_fails_fast.1 [] (.ok ()) [["data", "uploads", "a.mp3"]]
      (PROCESSED_DIR ++ ["o.mp3"]) ["data", "uploads", "a.mp3"] (by decide) (by decide),
   claim_C7_amended_not_found_fails_fast.2.1 [] (.ok ()) ["data", "a.mp3"]
      (PROCESSED_DIR ++ ["o.mp4"]) "1280x720" "white" "black" none (by decide),
   claim_C7_amended_not_found_fails_fast.2.2.1 [] WhisperModel.loaded
      (.ok WhisperModel.loaded) (.ok ([], ⟨"en", 0, 0⟩)) ["data", "a.mp3"] (by decide)⟩

/-- C8 counterexample: after a failed engine initialization the cached
state remains unset, so the next transcription call in the same process
retries initialization — and succeeds when the constructor now works —
rather than failing fast without retry. -/
theorem claim_C8_counterexample :
    (transcribe_audio [["data", "a.mp3"]] none (.error (.runtimeError "init failed"))
        (.ok ([], ⟨"en", 0, 0⟩)) ["data", "a.mp3"]).result
      = .error (.runtimeError "Whisper model is not initialized or failed to load.")
    ∧ (transcribe_audio [["data", "a.mp3"]] none (.error (.runtimeError "init failed"))
        (.ok ([], ⟨"en", 0, 0⟩)) ["data", "a.mp3"]).state = none
    ∧ (get_whisper_model none (.ok WhisperModel.loaded)).attemptedInit = true
    ∧ (transcribe_audio [["data", "a.mp3"]] none (.ok WhisperModel.loaded)
        (.ok ([], ⟨"en", 0, 0⟩)) ["data", "a.mp3"]).result = .ok ("", "") := by
  decide

/-- C8 amended: a transcription call that fails engine initialization
raises the distinguishable engine-unavailable error (with zero engine
invocations), but the failure is not cached: the module state stays unset
and every later call with the engine still unset re-attempts construction;
once construction succeeds the instance is cached and later calls reuse it
without attempting construction again. -/
theorem claim_C8_amended_init_retried_per_call (fs : FS) (p : FPath) (e : Exc)
    (eng : Except Exc (List Segment × TranscriptionInfo))
    (ini : Except Exc WhisperModel) (m : WhisperModel) :
    ((transcribe_audio fs none (.error e) eng p).result
        = .error (.runtimeError "Whisper model is not initialized or failed to load.")
      ∧ (transcribe_audio fs none (.error e) eng p).state = none
      ∧ (transcribe_audio fs none (.error e) eng p).engineCalls = 0)
    ∧ (get_whisper_model none ini).attemptedInit = true
    ∧ (get_whisper_model none (.ok m)).state = some m
    ∧ (get_whisper_model (some m) ini).attemptedInit = false
    ∧ (get_whisper_model (some m) ini).result = some m := by
  refine ⟨⟨rfl, rfl, rfl⟩, ?_, rfl, rfl, rfl⟩
  cases ini with
  | ok x => rfl
  | error x => rfl

end Podcaster
